import Mathlib

/-!
Verification of the token-validation Worker in `src/index.js`: a shallow
embedding of its JWKS cache (`getJWKS`), JWT validation (`validateJWT`)
and HTTP entry point (the exported `fetch` handler), together with
theorems settling the specification claims. Host capabilities used by the
code (Date.now, fetch, atob, JSON.parse, TextEncoder, WebCrypto) are
modelled explicitly; the two module-level cache variables are threaded as
explicit state.
-/

set_option maxRecDepth 65536

namespace AuthWorker

/-- JSON values as produced by the runtime's JSON.parse. Numbers are
modelled as exact integers: the integral values the Worker's claims
(`exp` epoch seconds) take are represented exactly; non-integral numeric
literals and values beyond IEEE-754 exactness are outside the model (see
`parseNumber`). -/
inductive Json where
  | null : Json
  | bool : Bool → Json
  | num : Int → Json
  | str : String → Json
  | arr : List Json → Json
  | obj : List (String × Json) → Json

/-- Thrown JavaScript exceptions reaching the Worker's try/catch. The
`error` constructor carries the message of an explicit
`throw new Error(msg)` in index.js; the remaining constructors are the
host exceptions the validation code can raise: `badBase64` is the
DOMException thrown by `atob` on input that is not standard base64,
`badJson` the SyntaxError from `JSON.parse` (and `Response.json()`),
`typeErr` a TypeError (property read on null, calling `.find` on a
non-array, fetching an invalid URL), `importErr` the error from
`crypto.subtle.importKey` on unusable key material, and `netErr` a
rejected `fetch` (network failure or timeout). -/
inductive JsError where
  | error : String → JsError
  | badBase64 : JsError
  | badJson : JsError
  | typeErr : JsError
  | importErr : JsError
  | netErr : JsError
deriving DecidableEq

/-- Lookup of a field of a JavaScript object built by JSON.parse: with
duplicate keys the later member wins, so the scan prefers the rightmost
match. -/
def objLookup (fields : List (String × Json)) (name : String) : Option Json :=
  match fields with
  | [] => none
  | (k, v) :: rest =>
    match objLookup rest name with
    | some w => some w
    | none => if k = name then some v else none

/-- JavaScript property read `base.name` for the property names index.js
uses (kid, iss, exp, sub, jwks_uri, keys). Reading from null throws a
TypeError; a missing property of an object, or any of these names on
another primitive or an array (none of them is an Object/Array/String
prototype member), is undefined, modelled as `none`. -/
def propGet : Json → String → Except JsError (Option Json)
  | .null, _ => .error .typeErr
  | .obj fields, name => .ok (objLookup fields name)
  | _, _ => .ok none

/-- JavaScript truthiness of a JSON.parse value (NaN and undefined cannot
occur as such a value; undefined is handled at use sites). -/
def jsTruthy : Json → Bool
  | .null => false
  | .bool b => b
  | .num n => n != 0
  | .str s => s != ""
  | .arr _ => true
  | .obj _ => true

/-- JavaScript strict equality `===` as used on line 39
(`k.kid === header.kid`), with `none` standing for undefined:
undefined === undefined is true, primitives compare by value, and two
objects or arrays are compared by reference — here they always come from
distinct JSON.parse allocations, hence are never reference-equal. -/
def jsStrictEq : Option Json → Option Json → Bool
  | none, none => true
  | some .null, some .null => true
  | some (.bool a), some (.bool b) => a == b
  | some (.num a), some (.num b) => a == b
  | some (.str a), some (.str b) => a == b
  | _, _ => false

/-- Whitespace trimmed by the JavaScript string-to-number coercion
(the common ASCII forms). -/
def isJsWsChar (c : Char) : Bool :=
  c = ' ' ∨ c = '\t' ∨ c = '\n' ∨ c = '\r' ∨ c = Char.ofNat 11 ∨ c = Char.ofNat 12

def decDigitVal (c : Char) : Option Nat :=
  if '0' ≤ c ∧ c ≤ '9' then some (c.toNat - 48) else none

def digitsToNat (ds : List Char) : Option Nat :=
  ds.foldlM (fun acc c => (decDigitVal c).map (fun d => acc * 10 + d)) 0

/-- JavaScript ToNumber on a string, `none` standing for NaN: trimmed
empty input is 0, an optionally signed decimal integer literal is its
value, anything else is NaN. (Fractional, hex and Infinity literals,
which no JWT claim field takes, are outside the model.) -/
def strToNumber (s : String) : Option Int :=
  let t := ((s.data.dropWhile isJsWsChar).reverse.dropWhile isJsWsChar).reverse
  match t with
  | [] => some 0
  | '-' :: ds => if ds = [] then none else (digitsToNat ds).map (fun n => -(n : Int))
  | '+' :: ds => if ds = [] then none else (digitsToNat ds).map (fun n => (n : Int))
  | ds => (digitsToNat ds).map (fun n => (n : Int))

/-- JavaScript ToNumber coercion as applied by `payload.exp * 1000`, with
`none` standing for NaN: null is 0, booleans are 0/1, numbers are
themselves, strings parse as `strToNumber`, an array coerces through its
joined string form (empty array to 0, a one-element array to its
element's number, longer arrays to NaN because the join contains a
comma), and a plain object is NaN. -/
def jsToNumber : Json → Option Int
  | .null => some 0
  | .bool b => some (if b then 1 else 0)
  | .num n => some n
  | .str s => strToNumber s
  | .arr [] => some 0
  | .arr [v] => jsToNumber v
  | .arr _ => none
  | .obj _ => none

/-- Line 62: `payload.exp * 1000 < Date.now()`. When `exp` is undefined
(absent) the product is NaN and the comparison is false, so the token is
not treated as expired; likewise for any value coercing to NaN. -/
def expiredCheck (expVal : Option Json) (nowMs : Int) : Bool :=
  match expVal with
  | none => false
  | some v =>
    match jsToNumber v with
    | none => false
    | some e => e * 1000 < nowMs

/-- ASCII whitespace removed by the forgiving-base64 decode behind `atob`. -/
def isB64Ws (c : Char) : Bool :=
  c = ' ' ∨ c = '\t' ∨ c = '\n' ∨ c = Char.ofNat 12 ∨ c = '\r'

/-- Value of a character of the standard base64 alphabet used by `atob`;
`none` for every other character, in particular for the base64url
characters '-' and '_'. -/
def b64Val (c : Char) : Option Nat :=
  if 'A' ≤ c ∧ c ≤ 'Z' then some (c.toNat - 65)
  else if 'a' ≤ c ∧ c ≤ 'z' then some (c.toNat - 97 + 26)
  else if '0' ≤ c ∧ c ≤ '9' then some (c.toNat - 48 + 52)
  else if c = '+' then some 62
  else if c = '/' then some 63
  else none

/-- Removal of one trailing '=' padding character, when present. -/
def dropOneEq (cs : List Char) : List Char :=
  if cs.getLast? = some '=' then cs.dropLast else cs

/-- Removal of at most two trailing '=' padding characters. -/
def dropTrailingEq (cs : List Char) : List Char := dropOneEq (dropOneEq cs)

/-- Bytes of a sequence of 6-bit groups, as in forgiving-base64 decode: a
final group of two or three characters contributes one or two bytes, and
leftover low bits are discarded. -/
def b64Chunks : List Nat → List Nat
  | a :: b :: c :: d :: rest =>
    (a * 4 + b / 16) :: ((b % 16) * 16 + c / 4) :: ((c % 4) * 64 + d) :: b64Chunks rest
  | [a, b] => [a * 4 + b / 16]
  | [a, b, c] => [a * 4 + b / 16, (b % 16) * 16 + c / 4]
  | _ => []

/-- The forgiving-base64 decode performed by `atob` (lines 34, 35, 56),
yielding the byte sequence, or `none` for the DOMException `atob` throws:
ASCII whitespace is removed; if the length is then a multiple of four, up
to two trailing '=' are removed; a remaining length of 1 mod 4, or any
remaining character outside the standard base64 alphabet — for example
the base64url characters '-' and '_' — is an error. -/
def stripB64 (cs : List Char) : List Char :=
  if cs.length % 4 = 0 then dropTrailingEq cs else cs

/-- Value of every character of a candidate base64 payload, or `none` as
soon as one is outside the alphabet. -/
def mapB64 : List Char → Option (List Nat)
  | [] => some []
  | c :: cs =>
    match b64Val c, mapB64 cs with
    | some v, some vs => some (v :: vs)
    | _, _ => none

def atobCore (data : List Char) : Option (List Nat) :=
  if data.length % 4 = 1 then none
  else
    match mapB64 data with
    | some vals => some (b64Chunks vals)
    | none => none

def atobBytes (s : String) : Option (List Nat) :=
  atobCore (stripB64 (s.data.filter (fun c => !(isB64Ws c))))

/-- Result of `atob` as a JavaScript string: each decoded byte becomes the
code unit of the same value. -/
def atobString (s : String) : Option String :=
  (atobBytes s).map (fun bs => String.mk (bs.map Char.ofNat))

/-- UTF-8 encoding of one character, as performed by
`new TextEncoder().encode` (the encoded input here is the ASCII signing
input of line 55). -/
def utf8Char (c : Char) : List Nat :=
  let n := c.toNat
  if n < 128 then [n]
  else if n < 2048 then [192 + n / 64, 128 + n % 64]
  else if n < 65536 then [224 + n / 4096, 128 + n / 64 % 64, 128 + n % 64]
  else [240 + n / 262144, 128 + n / 4096 % 64, 128 + n / 64 % 64, 128 + n % 64]

/-- Line 55: `new TextEncoder().encode(...)`, the UTF-8 bytes of a string. -/
def encodeUtf8 (s : String) : List Nat :=
  (s.data.map utf8Char).flatten

/-- Whitespace insignificant in JSON source. -/
def isJsonWs (c : Char) : Bool :=
  c = ' ' ∨ c = '\t' ∨ c = '\n' ∨ c = '\r'

def skipWs : List Char → List Char
  | c :: cs => if isJsonWs c then skipWs cs else c :: cs
  | [] => []

def hexDigitVal (c : Char) : Option Nat :=
  if '0' ≤ c ∧ c ≤ '9' then some (c.toNat - 48)
  else if 'a' ≤ c ∧ c ≤ 'f' then some (c.toNat - 87)
  else if 'A' ≤ c ∧ c ≤ 'F' then some (c.toNat - 55)
  else none

def hex4 (a b c d : Char) : Option Nat := do
  let x ← hexDigitVal a
  let y ← hexDigitVal b
  let z ← hexDigitVal c
  let w ← hexDigitVal d
  some (((x * 16 + y) * 16 + z) * 16 + w)

/-- Body of a JSON string after the opening quote: ends at an unescaped
quote, rejects raw control characters and unknown escapes, combines a
surrogate-pair escape into one character. A lone surrogate escape, which
JavaScript would keep as an unpaired UTF-16 unit, has no Lean character
and degrades to NUL here; no claim exercises it. -/
def parseStrBody : Nat → List Char → List Char → Option (String × List Char)
  | 0, _, _ => none
  | _ + 1, _, [] => none
  | fuel + 1, acc, c :: rest =>
    if c = '"' then some (String.mk acc.reverse, rest)
    else if c.toNat < 32 then none
    else if c = '\\' then
      match rest with
      | [] => none
      | e :: rest2 =>
        if e = '"' then parseStrBody fuel ('"' :: acc) rest2
        else if e = '\\' then parseStrBody fuel ('\\' :: acc) rest2
        else if e = '/' then parseStrBody fuel ('/' :: acc) rest2
        else if e = 'b' then parseStrBody fuel (Char.ofNat 8 :: acc) rest2
        else if e = 'f' then parseStrBody fuel (Char.ofNat 12 :: acc) rest2
        else if e = 'n' then parseStrBody fuel ('\n' :: acc) rest2
        else if e = 'r' then parseStrBody fuel ('\r' :: acc) rest2
        else if e = 't' then parseStrBody fuel ('\t' :: acc) rest2
        else if e = 'u' then
          match rest2 with
          | a :: b :: c2 :: d :: rest3 =>
            match hex4 a b c2 d with
            | none => none
            | some h =>
              if 55296 ≤ h ∧ h ≤ 56319 then
                match rest3 with
                | '\\' :: 'u' :: a2 :: b2 :: c3 :: d2 :: rest4 =>
                  match hex4 a2 b2 c3 d2 with
                  | some l =>
                    if 56320 ≤ l ∧ l ≤ 57343 then
                      parseStrBody fuel
                        (Char.ofNat (65536 + (h - 55296) * 1024 + (l - 56320)) :: acc) rest4
                    else parseStrBody fuel (Char.ofNat h :: acc) rest3
                  | none => parseStrBody fuel (Char.ofNat h :: acc) rest3
                | _ => parseStrBody fuel (Char.ofNat h :: acc) rest3
              else parseStrBody fuel (Char.ofNat h :: acc) rest3
          | _ => none
        else none
    else parseStrBody fuel (c :: acc) rest

def natOfDigits (ds : List Char) : Nat :=
  ds.foldl (fun a c => a * 10 + (c.toNat - 48)) 0

def isDigitChar (c : Char) : Bool := decide ('0' ≤ c ∧ c ≤ '9')

/-- JSON number literal, per the JSON grammar (optional minus, integer
part without a superfluous leading zero, optional fraction, optional
exponent). The numeric value is computed exactly as an integer; a literal
whose value is not an integer — which no claim field of this Worker
carries — is outside the model and reported as a parse failure, and
values large enough for IEEE-754 rounding are kept exact. -/
def parseNumber (cs : List Char) : Option (Json × List Char) :=
  let signed := match cs with
    | '-' :: rest => (true, rest)
    | _ => (false, cs)
  let neg := signed.1
  let cs1 := signed.2
  let intSpan := cs1.span isDigitChar
  let intDs := intSpan.1
  let cs2 := intSpan.2
  if intDs = [] then none
  else if intDs.length > 1 ∧ intDs.headD '0' = '0' then none
  else
    let fracStep : Option (List Char × List Char) :=
      match cs2 with
      | '.' :: rest =>
        let sp := rest.span isDigitChar
        if sp.1 = [] then none else some (sp.1, sp.2)
      | _ => some ([], cs2)
    match fracStep with
    | none => none
    | some (fracDs, cs3) =>
      let expStep : Option (Bool × List Char × List Char) :=
        match cs3 with
        | 'e' :: rest | 'E' :: rest =>
          let signedE := match rest with
            | '-' :: r2 => (true, r2)
            | '+' :: r2 => (false, r2)
            | _ => (false, rest)
          let sp := signedE.2.span isDigitChar
          if sp.1 = [] then none else some (signedE.1, sp.1, sp.2)
        | _ => some (false, [], cs3)
      match expStep with
      | none => none
      | some (expNeg, expDs, cs4) =>
        let mant : Nat := natOfDigits (intDs ++ fracDs)
        let e : Int := (if expNeg then -(natOfDigits expDs : Int) else (natOfDigits expDs : Int))
        let scale : Int := e - fracDs.length
        let mag : Option Int :=
          if 0 ≤ scale then some ((mant : Int) * 10 ^ scale.toNat)
          else if mant % 10 ^ (-scale).toNat = 0 then some ((mant : Int) / (10 ^ (-scale).toNat : Nat))
          else none
        match mag with
        | none => none
        | some m => some (.num (if neg then -m else m), cs4)

mutual

def parseValue : Nat → List Char → Option (Json × List Char)
  | 0, _ => none
  | fuel + 1, cs =>
    match skipWs cs with
    | [] => none
    | c :: rest =>
      if c = '"' then
        match parseStrBody (rest.length + 1) [] rest with
        | some (s, r) => some (.str s, r)
        | none => none
      else if c = '{' then parseObjRest fuel rest
      else if c = '[' then parseArrRest fuel rest
      else if c = 't' then
        match rest with
        | 'r' :: 'u' :: 'e' :: r => some (.bool true, r)
        | _ => none
      else if c = 'f' then
        match rest with
        | 'a' :: 'l' :: 's' :: 'e' :: r => some (.bool false, r)
        | _ => none
      else if c = 'n' then
        match rest with
        | 'u' :: 'l' :: 'l' :: r => some (.null, r)
        | _ => none
      else parseNumber (c :: rest)

def parseObjRest : Nat → List Char → Option (Json × List Char)
  | 0, _ => none
  | fuel + 1, cs =>
    match skipWs cs with
    | '}' :: r => some (.obj [], r)
    | _ => parseMembers fuel [] cs

def parseMembers : Nat → List (String × Json) → List Char → Option (Json × List Char)
  | 0, _, _ => none
  | fuel + 1, acc, cs =>
    match skipWs cs with
    | '"' :: rest =>
      match parseStrBody (rest.length + 1) [] rest with
      | none => none
      | some (k, r1) =>
        match skipWs r1 with
        | ':' :: r2 =>
          match parseValue fuel r2 with
          | none => none
          | some (v, r3) =>
            match skipWs r3 with
            | ',' :: r4 => parseMembers fuel ((k, v) :: acc) r4
            | '}' :: r4 => some (.obj ((k, v) :: acc).reverse, r4)
            | _ => none
        | _ => none
    | _ => none

def parseArrRest : Nat → List Char → Option (Json × List Char)
  | 0, _ => none
  | fuel + 1, cs =>
    match skipWs cs with
    | ']' :: r => some (.arr [], r)
    | _ => parseElems fuel [] cs

def parseElems : Nat → List Json → List Char → Option (Json × List Char)
  | 0, _, _ => none
  | fuel + 1, acc, cs =>
    match parseValue fuel cs with
    | none => none
    | some (v, r1) =>
      match skipWs r1 with
      | ',' :: r2 => parseElems fuel (v :: acc) r2
      | ']' :: r2 => some (.arr (v :: acc).reverse, r2)
      | _ => none

end

/-- JSON.parse (lines 20, 23, 34, 35): parse one JSON value and require
only whitespace to follow; `none` models the thrown SyntaxError. The fuel
bounds the recursion and strictly exceeds every call chain an input of
this length can produce, so it is never exhausted on a complete parse. -/
def jsonParse (s : String) : Option Json :=
  match parseValue (4 * (s.data.length + 1)) s.data with
  | some (v, rest) =>
    match skipWs rest with
    | [] => some v
    | _ => none
  | none => none

/-- Line 5: the configured issuer. -/
def OIDC_ISSUER : String := "https://integrator-2817162.okta.com/oauth2/default"

/-- Line 19: the discovery-document URL. -/
def oidcConfigUrl : String := OIDC_ISSUER ++ "/.well-known/openid-configuration"

/-- Line 15: the 10-minute cache TTL in milliseconds. -/
def cacheTtlMs : Int := 10 * 60 * 1000

/-- An HTTP response as seen through the fetch API: its status code and
its body text. -/
structure HttpResponse where
  status : Nat
  body : String

/-- The algorithm argument of `crypto.subtle.importKey`, lines 46-49. -/
structure RsaImportParams where
  name : String
  hash : String

/-- The fixed algorithm identifier of lines 46-49, passed to importKey on
every call. -/
def rsassaImportParams : RsaImportParams := ⟨"RSASSA-PKCS1-v1_5", "SHA-256"⟩

/-- The fixed algorithm name of line 57, passed to verify on every call. -/
def verifyAlgName : String := "RSASSA-PKCS1-v1_5"

/-- A Worker Response value: the pieces this handler constructs or
forwards (status and body). -/
structure WResponse where
  status : Nat
  body : String

/-- The host capabilities the Worker calls into. `nowMs` is Date.now()
(one instant per request; the code reads the clock on lines 14 and 62
within the same request). `httpGet` is `fetch` of a URL, resolving to a
response or rejecting. `importKey` is `crypto.subtle.importKey` of a JWK
under the given algorithm, the imported CryptoKey being represented by
the JWK itself. `verify` is `crypto.subtle.verify` of algorithm name,
key, signature bytes and data bytes. `backendResponse` is the result of
the backend forward on lines 88-92. -/
structure Env where
  nowMs : Int
  httpGet : String → Except JsError HttpResponse
  importKey : RsaImportParams → Json → Except JsError Unit
  verify : String → Json → List Nat → List Nat → Bool
  backendResponse : Except JsError WResponse

/-- The module-level mutable state of lines 9-10: `jwksCache` (initially
null, modelled as `none`) and `jwksFetchedAt`. -/
structure CacheState where
  jwksCache : Option Json
  jwksFetchedAt : Int

/-- The initial state of lines 9-10. -/
def initialCache : CacheState := ⟨none, 0⟩

/-- Line 15: `jwksCache && now - jwksFetchedAt < 10 * 60 * 1000`. The
cached value itself is tested for truthiness, so a cached falsy JSON
value (for example null) also misses. -/
def cacheHit (cache : Option Json) (fetchedAt nowMs : Int) : Bool :=
  match cache with
  | none => false
  | some v => jsTruthy v && nowMs - fetchedAt < cacheTtlMs

/-- Behaviour of `r.json()` (lines 20, 23): parse the body, whatever the
status code — the status is never consulted. -/
def responseJson (r : HttpResponse) : Except JsError Json :=
  match jsonParse r.body with
  | some j => .ok j
  | none => .error .badJson

/-- Lines 20 and 23: `fetch(url).then(r => r.json())` — a rejected fetch
propagates, a resolved one has its body parsed whatever its status. -/
def fetchJson (env : Env) (u : String) : Except JsError Json :=
  match env.httpGet u with
  | .error e => .error e
  | .ok r => responseJson r

/-- Lines 19-23: the fetch pair run on a cache miss — fetch and parse the
discovery document, read `jwks_uri` from it, fetch and parse that URL.
Calling fetch with a value that is not a string (including undefined,
when `jwks_uri` is absent) is modelled as the TypeError the runtime
raises for an invalid URL. -/
def refreshJWKS (env : Env) : Except JsError Json :=
  match fetchJson env oidcConfigUrl with
  | .error e => .error e
  | .ok cfg =>
    match propGet cfg "jwks_uri" with
    | .error e => .error e
    | .ok (some (.str u)) => fetchJson env u
    | .ok _ => .error .typeErr

/-- getJWKS, lines 12-27: serve the cache when line 15's test passes,
otherwise run the fetch pair and, only on success, store the result and
the `now` read at entry (lines 24-25). A thrown error leaves both cache
variables untouched. -/
def getJWKS (env : Env) (st : CacheState) : Except JsError Json × CacheState :=
  let now := env.nowMs
  if cacheHit st.jwksCache st.jwksFetchedAt now then
    (.ok (st.jwksCache.getD Json.null), st)
  else
    match refreshJWKS env with
    | .ok jwks => (.ok jwks, ⟨some jwks, now⟩)
    | .error e => (.error e, st)

def splitDotAux : List Char → List Char → List String
  | acc, [] => [String.mk acc.reverse]
  | acc, c :: rest =>
    if c = '.' then String.mk acc.reverse :: splitDotAux [] rest
    else splitDotAux (c :: acc) rest

/-- Line 30: `token.split(".")` — split at every '.' occurrence; an empty
string yields one empty segment, adjacent dots yield empty segments. -/
def jsSplitDot (s : String) : List String := splitDotAux [] s.data

/-- Line 39: `jwks.keys.find(k => k.kid === header.kid)`. The callback
reads `k.kid` and then `header.kid` for each element in order, so a
thrown TypeError (a null element, or a null header once some element is
examined) propagates out of `find`. -/
def findJWK (header : Json) : List Json → Except JsError (Option Json)
  | [] => .ok none
  | k :: rest =>
    match propGet k "kid" with
    | .error e => .error e
    | .ok kKid =>
      match propGet header "kid" with
      | .error e => .error e
      | .ok hKid =>
        if jsStrictEq kKid hKid then .ok (some k) else findJWK header rest

/-- validateJWT, lines 29-65, with the cache variables threaded as state.
Failures are the thrown exceptions of the source: the five classified
`new Error` throws of lines 31, 40, 58, 61, 62, plus the host exceptions
of the decoding, parsing, property-access, key-import and network
operations. Reading `jwks.keys` of a non-object, or calling `.find` on a
`keys` value that is not an array, is the TypeError of the corresponding
runtime step. -/
def validateJWT (env : Env) (st : CacheState) (token : String) :
    Except JsError Json × CacheState :=
  match jsSplitDot token with
  | [headerB64, payloadB64, signatureB64] =>
    match atobString headerB64 with
    | none => (.error .badBase64, st)
    | some headerTxt =>
      match jsonParse headerTxt with
      | none => (.error .badJson, st)
      | some header =>
        match atobString payloadB64 with
        | none => (.error .badBase64, st)
        | some payloadTxt =>
          match jsonParse payloadTxt with
          | none => (.error .badJson, st)
          | some payload =>
            match getJWKS env st with
            | (.error e, st1) => (.error e, st1)
            | (.ok jwks, st1) =>
              match propGet jwks "keys" with
              | .error e => (.error e, st1)
              | .ok (some (.arr keyList)) =>
                match findJWK header keyList with
                | .error e => (.error e, st1)
                | .ok found =>
                  if ¬ found.elim false jsTruthy then
                    (.error (.error "No matching JWK"), st1)
                  else
                    let jwk := found.getD Json.null
                    match env.importKey rsassaImportParams jwk with
                    | .error e => (.error e, st1)
                    | .ok () =>
                      match atobBytes signatureB64 with
                      | none => (.error .badBase64, st1)
                      | some signature =>
                        if ¬ env.verify verifyAlgName jwk signature
                            (encodeUtf8 (headerB64 ++ "." ++ payloadB64)) then
                          (.error (.error "Invalid signature"), st1)
                        else
                          match propGet payload "iss" with
                          | .error e => (.error e, st1)
                          | .ok issVal =>
                            if ¬ jsStrictEq issVal (some (.str OIDC_ISSUER)) then
                              (.error (.error "Invalid issuer"), st1)
                            else
                              match propGet payload "exp" with
                              | .error e => (.error e, st1)
                              | .ok expVal =>
                                if expiredCheck expVal env.nowMs then
                                  (.error (.error "Token expired"), st1)
                                else (.ok payload, st1)
              | .ok _ => (.error .typeErr, st1)
  | _ => (.error (.error "Invalid JWT format"), st)

/-- An inbound request as the handler reads it: the value of its
Authorization header (`none` for an absent header, as `headers.get`
returns null). -/
structure WRequest where
  authorization : Option String

def charsLead : List Char → List Char → Bool
  | [], _ => true
  | _ :: _, [] => false
  | p :: ps, c :: cs => p == c && charsLead ps cs

/-- Line 71: `auth.startsWith("Bearer ")`. -/
def strLeads (pre s : String) : Bool := charsLead pre.data s.data

/-- Line 75: `auth.substring(7)` — the characters from index 7 on. -/
def jsSubstring7 (s : String) : String := String.mk (s.data.drop 7)

/-- Message text of a thrown error as interpolated into line 96's
response body. The host-exception messages vary by runtime and are
modelled representatively; the claims depend only on the `error`
constructor's exact messages. -/
def errMessage : JsError → String
  | .error m => m
  | .badBase64 => "Invalid character"
  | .badJson => "Unexpected token in JSON"
  | .typeErr => "Type error"
  | .importErr => "Key import error"
  | .netErr => "Network error"

/-- The exported fetch handler, lines 67-99: require a Bearer
Authorization header, validate the token, reject a falsy `sub` claim
with 403, otherwise forward to the backend; the surrounding try/catch
turns every thrown error into a 401 carrying its message. -/
def handleFetch (env : Env) (st : CacheState) (req : WRequest) :
    WResponse × CacheState :=
  match req.authorization with
  | none => (⟨401, "Missing Authorization header"⟩, st)
  | some auth =>
    if auth = "" ∨ ¬ strLeads "Bearer " auth then
      (⟨401, "Missing Authorization header"⟩, st)
    else
      match validateJWT env st (jsSubstring7 auth) with
      | (.error e, st1) => (⟨401, "Unauthorized: " ++ errMessage e⟩, st1)
      | (.ok claims, st1) =>
        match propGet claims "sub" with
        | .error e => (⟨401, "Unauthorized: " ++ errMessage e⟩, st1)
        | .ok subVal =>
          if ¬ subVal.elim false jsTruthy then
            (⟨403, "Forbidden: Invalid token claims"⟩, st1)
          else
            match env.backendResponse with
            | .ok resp => (resp, st1)
            | .error e => (⟨401, "Unauthorized: " ++ errMessage e⟩, st1)

/-- Progress of one concurrent getJWKS call in the interleaving model:
before its first step, suspended at the network await, or returned with
a key set. -/
inductive CallPhase where
  | ready : CallPhase
  | fetching : CallPhase
  | finished : Json → CallPhase

/-- Shared state of N overlapping getJWKS calls: the two module-level
cache variables, the number of fetch pairs initiated against the key
source, and each call's phase. -/
structure ConcState where
  cache : Option Json
  fetchedAt : Int
  fetchCount : Nat
  phase : Nat → CallPhase

/-- One scheduler step of call `i` in the interleaving model of getJWKS.
A ready call runs the synchronous prefix of lines 14-17 and either
returns the cached value on a hit or initiates its own fetch pair (the
await of line 20) on a miss — the count of key-source invocations rises
at initiation. A suspended call completes its fetch pair and runs lines
24-26, publishing the fetched key set and the `now` read at its entry.
All calls arrive within the same instant (`nowMs`), the scenario of one
TTL window, and the issuer serves every fetch the same body `fetched`. -/
def concStep (nowMs : Int) (fetched : Json) (s : ConcState) (i : Nat) : ConcState :=
  match s.phase i with
  | .ready =>
    if cacheHit s.cache s.fetchedAt nowMs then
      ⟨s.cache, s.fetchedAt, s.fetchCount,
        fun j => if j = i then .finished (s.cache.getD Json.null) else s.phase j⟩
    else
      ⟨s.cache, s.fetchedAt, s.fetchCount + 1,
        fun j => if j = i then .fetching else s.phase j⟩
  | .fetching =>
    ⟨some fetched, nowMs, s.fetchCount,
      fun j => if j = i then .finished fetched else s.phase j⟩
  | .finished _ => s

/-- Execution of a schedule: the interleaving runs the steps of the named
calls in the given order. -/
def runSchedule (nowMs : Int) (fetched : Json) (s : ConcState) (sched : List Nat) :
    ConcState :=
  sched.foldl (concStep nowMs fetched) s

/-- Initial concurrent state: empty cache (lines 9-10) and N calls about
to start. -/
def concStart : ConcState := ⟨none, 0, 0, fun _ => .ready⟩

/-- Env with the verify capability replaced and everything else kept. -/
def setVerify (e : Env) (v : String → Json → List Nat → List Nat → Bool) : Env :=
  ⟨e.nowMs, e.httpGet, e.importKey, v, e.backendResponse⟩

/-- Env with the backend forward's result replaced and everything else
kept. -/
def setBackend (e : Env) (b : Except JsError WResponse) : Env :=
  ⟨e.nowMs, e.httpGet, e.importKey, e.verify, b⟩

/-- The key set body served in the concrete scenarios: one RSA key with
kid k1, as parsed. -/
def jwkK1 : Json := .obj [("kid", .str "k1")]

def jwksJson : Json := .obj [("keys", .arr [jwkK1])]

/-- Cache already holding the k1 key set, fetched at time 0. -/
def stHit : CacheState := ⟨some jwksJson, 0⟩

/-- Concrete host environment at time 0 whose crypto accepts every
signature and whose network is down (the cached scenarios never touch
it). -/
def envT : Env :=
  ⟨0, fun _ => .error .netErr, fun _ _ => .ok (), fun _ _ _ _ => true, .ok ⟨200, "backend"⟩⟩

/-- base64 of the header with kid k1. -/
def headerK1B64 : String := "eyJraWQiOiJrMSJ9"

/-- base64 of a payload with the configured issuer, sub u1 and exp
9999999999. -/
def payloadFullB64 : String :=
  "eyJpc3MiOiJodHRwczovL2ludGVncmF0b3ItMjgxNzE2Mi5va3RhLmNvbS9vYXV0aDIvZGVmYXVsdCIsInN1YiI6InUxIiwiZXhwIjo5OTk5OTk5OTk5fQ=="

/-- base64 of the same payload without any exp member. -/
def payloadNoExpB64 : String :=
  "eyJpc3MiOiJodHRwczovL2ludGVncmF0b3ItMjgxNzE2Mi5va3RhLmNvbS9vYXV0aDIvZGVmYXVsdCIsInN1YiI6InUxIn0="

/-- base64 of the same payload with an empty sub. -/
def payloadEmptySubB64 : String :=
  "eyJpc3MiOiJodHRwczovL2ludGVncmF0b3ItMjgxNzE2Mi5va3RhLmNvbS9vYXV0aDIvZGVmYXVsdCIsInN1YiI6IiJ9"

/-- base64 of the header with kid k1 and alg HS256. -/
def headerAlgB64 : String := "eyJraWQiOiJrMSIsImFsZyI6IkhTMjU2In0="

def tokenFull : String := headerK1B64 ++ "." ++ payloadFullB64 ++ ".AAAA"

def tokenNoExp : String := headerK1B64 ++ "." ++ payloadNoExpB64 ++ ".AAAA"

def tokenEmptySub : String := headerK1B64 ++ "." ++ payloadEmptySubB64 ++ ".AAAA"

def tokenAlgHS : String := headerAlgB64 ++ "." ++ payloadFullB64 ++ ".AAAA"

/-- The header e30= decodes to an empty object: no kid at all. -/
def tokenNoKid : String := "e30=." ++ payloadFullB64 ++ ".AAAA"

def payloadFull : Json :=
  .obj [("iss", .str OIDC_ISSUER), ("sub", .str "u1"), ("exp", .num 9999999999)]

def payloadNoExp : Json := .obj [("iss", .str OIDC_ISSUER), ("sub", .str "u1")]

def payloadEmptySub : Json := .obj [("iss", .str OIDC_ISSUER), ("sub", .str "")]

/-- Discovery-document body pointing at the JWKS URL. -/
def cfgBody : String := "\x7b\"jwks_uri\":\"https://jwks.test\"\x7d"

/-- JWKS body with the single k1 key. -/
def jwksBody : String := "\x7b\"keys\":[\x7b\"kid\":\"k1\"\x7d]\x7d"

/-- Network in which the JWKS endpoint answers with HTTP status 500 but a
well-formed JSON body. -/
def http500 : String → Except JsError HttpResponse := fun u =>
  if u = oidcConfigUrl then .ok ⟨200, cfgBody⟩
  else if u = "https://jwks.test" then .ok ⟨500, jwksBody⟩
  else .error .netErr

def env500 : Env := ⟨0, http500, fun _ _ => .ok (), fun _ _ _ _ => true, .ok ⟨200, "backend"⟩⟩

/-- Environment whose network always rejects. -/
def envDown : Env :=
  ⟨0, fun _ => .error .netErr, fun _ _ => .ok (), fun _ _ _ _ => true, .ok ⟨200, "backend"⟩⟩

/-- Shared pipeline lemma: when a token splits into three segments that
decode and parse, the key set arrives, a truthy key is found, the import
succeeds, the signature decodes and verifies, and the issuer matches,
then validateJWT comes down to line 62's expiry test on the payload's
exp member. -/
theorem validateJWT_eq_of_found (env : Env) (st : CacheState)
    (token h64 p64 s64 headerTxt payloadTxt : String)
    (header payload jwks : Json) (st1 : CacheState) (keyList : List Json)
    (jwk : Json) (sig : List Nat) (expVal : Option Json)
    (hsplit : jsSplitDot token = [h64, p64, s64])
    (hhdr : atobString h64 = some headerTxt)
    (hhj : jsonParse headerTxt = some header)
    (hpl : atobString p64 = some payloadTxt)
    (hpj : jsonParse payloadTxt = some payload)
    (hjw : getJWKS env st = (.ok jwks, st1))
    (hkeys : propGet jwks "keys" = .ok (some (.arr keyList)))
    (hfind : findJWK header keyList = .ok (some jwk))
    (htr : jsTruthy jwk = true)
    (himp : env.importKey rsassaImportParams jwk = .ok ())
    (hsig : atobBytes s64 = some sig)
    (hver : env.verify verifyAlgName jwk sig (encodeUtf8 (h64 ++ "." ++ p64)) = true)
    (hiss : propGet payload "iss" = .ok (some (.str OIDC_ISSUER)))
    (hexp : propGet payload "exp" = .ok expVal) :
    validateJWT env st token =
      if expiredCheck expVal env.nowMs then
        (.error (.error "Token expired"), st1)
      else (.ok payload, st1) := by
  unfold validateJWT
  simp only [hsplit, hhdr, hhj, hpl, hpj, hjw, hkeys, hfind, htr, himp, hsig, hver, hiss,
    hexp, Option.elim, Option.getD, jsStrictEq, beq_self_eq_true, not_true, not_false_iff,
    if_false, if_true]

/-- Claim C1, counterexample: a token whose payload has no exp member at all is
accepted by validateJWT — the NaN comparison of line 62 is false — where
the claim demands a TokenExpired rejection. -/
theorem noExp_token_validates :
    (validateJWT envT stHit tokenNoExp).1 = .ok payloadNoExp ∧
    propGet payloadNoExp "exp" = .ok none := ⟨rfl, rfl⟩

/-- Claim C1, amended: validateJWT rejects as expired exactly the payloads
whose exp coerces to a number e with e·1000 strictly below the current
millisecond time; a payload with no exp is accepted (undefined times
1000 is NaN, and NaN compares false), and a payload whose exp equals the
current time is accepted, not rejected. -/
theorem expiry_is_nan_lenient_and_nonstrict (env : Env) (st : CacheState)
    (token h64 p64 s64 headerTxt payloadTxt : String)
    (header payload jwks : Json) (st1 : CacheState) (keyList : List Json)
    (jwk : Json) (sig : List Nat) (expVal : Option Json)
    (hsplit : jsSplitDot token = [h64, p64, s64])
    (hhdr : atobString h64 = some headerTxt)
    (hhj : jsonParse headerTxt = some header)
    (hpl : atobString p64 = some payloadTxt)
    (hpj : jsonParse payloadTxt = some payload)
    (hjw : getJWKS env st = (.ok jwks, st1))
    (hkeys : propGet jwks "keys" = .ok (some (.arr keyList)))
    (hfind : findJWK header keyList = .ok (some jwk))
    (htr : jsTruthy jwk = true)
    (himp : env.importKey rsassaImportParams jwk = .ok ())
    (hsig : atobBytes s64 = some sig)
    (hver : env.verify verifyAlgName jwk sig (encodeUtf8 (h64 ++ "." ++ p64)) = true)
    (hiss : propGet payload "iss" = .ok (some (.str OIDC_ISSUER)))
    (hexp : propGet payload "exp" = .ok expVal) :
    (expVal = none → validateJWT env st token = (.ok payload, st1)) ∧
    (∀ e : Int, expVal = some (.num e) → e * 1000 = env.nowMs →
      validateJWT env st token = (.ok payload, st1)) ∧
    (∀ e : Int, expVal = some (.num e) → e * 1000 < env.nowMs →
      validateJWT env st token = (.error (.error "Token expired"), st1)) := by
  have key := validateJWT_eq_of_found env st token h64 p64 s64 headerTxt payloadTxt header
    payload jwks st1 keyList jwk sig expVal hsplit hhdr hhj hpl hpj hjw hkeys hfind htr
    himp hsig hver hiss hexp
  refine ⟨?_, ?_, ?_⟩
  · rintro rfl
    simpa [expiredCheck] using key
  · rintro e rfl hE
    rw [key]
    simp [expiredCheck, jsToNumber, hE]
  · rintro e rfl hE
    rw [key]
    simp [expiredCheck, jsToNumber, hE]

/-- Witness for the amended expiry theorem: the concrete no-exp token is
accepted with its payload returned. -/
theorem expiry_is_nan_lenient_and_nonstrict_witness :
    validateJWT envT stHit tokenNoExp = (.ok payloadNoExp, stHit) :=
  (expiry_is_nan_lenient_and_nonstrict envT stHit tokenNoExp headerK1B64 payloadNoExpB64
    "AAAA" "\x7b\"kid\":\"k1\"\x7d"
    "\x7b\"iss\":\"https://integrator-2817162.okta.com/oauth2/default\",\"sub\":\"u1\"\x7d"
    (.obj [("kid", .str "k1")]) payloadNoExp jwksJson stHit [jwkK1] jwkK1 [0, 0, 0] none
    rfl rfl rfl rfl rfl rfl rfl rfl rfl rfl rfl rfl rfl rfl).1 rfl

/-- Claim C3: a well-formed token that decodes, whose signature verifies
against the found key, whose issuer matches, whose exp lies strictly in
the future, and whose sub is a non-empty string, is accepted and the
entire parsed payload is returned as the claims. -/
theorem valid_token_returns_payload (env : Env) (st : CacheState)
    (token h64 p64 s64 headerTxt payloadTxt sb : String)
    (header payload jwks : Json) (st1 : CacheState) (keyList : List Json)
    (jwk : Json) (sig : List Nat) (e : Int)
    (hsplit : jsSplitDot token = [h64, p64, s64])
    (hhdr : atobString h64 = some headerTxt)
    (hhj : jsonParse headerTxt = some header)
    (hpl : atobString p64 = some payloadTxt)
    (hpj : jsonParse payloadTxt = some payload)
    (hjw : getJWKS env st = (.ok jwks, st1))
    (hkeys : propGet jwks "keys" = .ok (some (.arr keyList)))
    (hfind : findJWK header keyList = .ok (some jwk))
    (htr : jsTruthy jwk = true)
    (himp : env.importKey rsassaImportParams jwk = .ok ())
    (hsig : atobBytes s64 = some sig)
    (hver : env.verify verifyAlgName jwk sig (encodeUtf8 (h64 ++ "." ++ p64)) = true)
    (hiss : propGet payload "iss" = .ok (some (.str OIDC_ISSUER)))
    (hexp : propGet payload "exp" = .ok (some (.num e)))
    (hfresh : env.nowMs < e * 1000)
    (hsub : propGet payload "sub" = .ok (some (.str sb)))
    (hsb : sb ≠ "") :
    validateJWT env st token = (.ok payload, st1) := by
  have key := validateJWT_eq_of_found env st token h64 p64 s64 headerTxt payloadTxt header
    payload jwks st1 keyList jwk sig (some (.num e)) hsplit hhdr hhj hpl hpj hjw hkeys
    hfind htr himp hsig hver hiss hexp
  have hnot : ¬ (e * 1000 < env.nowMs) := by omega
  rw [key]
  simp [expiredCheck, jsToNumber, hnot]

/-- Witness for C3: the concrete full token is accepted with its payload
returned unchanged. -/
theorem valid_token_returns_payload_witness :
    validateJWT envT stHit tokenFull = (.ok payloadFull, stHit) :=
  valid_token_returns_payload envT stHit tokenFull headerK1B64 payloadFullB64 "AAAA"
    "\x7b\"kid\":\"k1\"\x7d"
    "\x7b\"iss\":\"https://integrator-2817162.okta.com/oauth2/default\",\"sub\":\"u1\",\"exp\":9999999999\x7d"
    "u1" (.obj [("kid", .str "k1")]) payloadFull jwksJson stHit [jwkK1] jwkK1 [0, 0, 0]
    9999999999 rfl rfl rfl rfl rfl rfl rfl rfl rfl rfl rfl rfl rfl rfl (by decide) rfl
    (by decide)

/-- Helper for C5: with no kid in the header, the lookup of line 39
compares undefined against each key's kid string and never matches. -/
theorem findJWK_eq_none (header : Json) (hkid : propGet header "kid" = .ok none) :
    ∀ keyList : List Json,
      (∀ k ∈ keyList, ∃ s, propGet k "kid" = .ok (some (.str s))) →
      findJWK header keyList = .ok none := by
  intro l
  induction l with
  | nil => intro _; rfl
  | cons k rest ih =>
    intro hall
    obtain ⟨s, hs⟩ := hall k (by simp)
    have hrest := ih (fun k2 hk2 => hall k2 (by simp [hk2]))
    have hne : jsStrictEq (some (.str s)) none = false := rfl
    unfold findJWK
    rw [hs, hkid]
    simp [hne, hrest]

/-- Claim C5, amended: a token whose decoded header carries no string kid is
not rejected as malformed — parsing succeeds and validation proceeds to
the key lookup, where the undefined kid matches no key carrying a string
kid, so the failure is line 40's UnknownKey rejection, the Error with
message No matching JWK. -/
theorem missing_kid_gives_no_matching_jwk (env : Env) (st : CacheState)
    (token h64 p64 s64 headerTxt payloadTxt : String)
    (header payload jwks : Json) (st1 : CacheState) (keyList : List Json)
    (hsplit : jsSplitDot token = [h64, p64, s64])
    (hhdr : atobString h64 = some headerTxt)
    (hhj : jsonParse headerTxt = some header)
    (hpl : atobString p64 = some payloadTxt)
    (hpj : jsonParse payloadTxt = some payload)
    (hjw : getJWKS env st = (.ok jwks, st1))
    (hkeys : propGet jwks "keys" = .ok (some (.arr keyList)))
    (hkid : propGet header "kid" = .ok none)
    (hall : ∀ k ∈ keyList, ∃ s, propGet k "kid" = .ok (some (.str s))) :
    validateJWT env st token = (.error (.error "No matching JWK"), st1) := by
  have hfind := findJWK_eq_none header hkid keyList hall
  unfold validateJWT
  simp only [hsplit, hhdr, hhj, hpl, hpj, hjw, hkeys, hfind, Option.elim]
  simp

/-- Witness for the amended C5 theorem at the concrete kid-less token. -/
theorem missing_kid_gives_no_matching_jwk_witness :
    validateJWT envT stHit tokenNoKid = (.error (.error "No matching JWK"), stHit) :=
  missing_kid_gives_no_matching_jwk envT stHit tokenNoKid "e30=" payloadFullB64 "AAAA"
    "\x7b\x7d"
    "\x7b\"iss\":\"https://integrator-2817162.okta.com/oauth2/default\",\"sub\":\"u1\",\"exp\":9999999999\x7d"
    (.obj []) payloadFull jwksJson stHit [jwkK1] rfl rfl rfl rfl rfl rfl rfl rfl
    (by intro k hk
        rw [List.mem_singleton] at hk
        exact ⟨"k1", by rw [hk]; rfl⟩)

/-- Claim C5, counterexample: the concrete token whose header is the empty
object is rejected with the UnknownKey error of line 40, which is not
the MalformedToken rejection of line 31 the claim requires. -/
theorem no_kid_token_not_malformed :
    (validateJWT envT stHit tokenNoKid).1 = .error (.error "No matching JWK") ∧
    JsError.error "No matching JWK" ≠ JsError.error "Invalid JWT format" :=
  ⟨rfl, by decide⟩

/-- Claim C6: when validation succeeds but the sub claim is absent or falsy
(in particular the empty string), the handler's check of lines 80-82
answers the fixed 403 Forbidden response: no claim data reaches the
response and — second conjunct — the backend is never consulted, the
outcome being the same whatever the backend would answer. -/
theorem empty_sub_rejected_403 (env : Env) (st : CacheState) (req : WRequest)
    (auth : String) (claims : Json) (st1 : CacheState) (subVal : Option Json)
    (hauth : req.authorization = some auth)
    (hbearer : strLeads "Bearer " auth = true)
    (hval : validateJWT env st (jsSubstring7 auth) = (.ok claims, st1))
    (hsub : propGet claims "sub" = .ok subVal)
    (hfalsy : subVal.elim false jsTruthy = false) :
    handleFetch env st req = (⟨403, "Forbidden: Invalid token claims"⟩, st1) ∧
    ∀ b, handleFetch (setBackend env b) st req =
      (⟨403, "Forbidden: Invalid token claims"⟩, st1) := by
  have hne : ¬ (auth = "") := by
    intro h
    rw [h] at hbearer
    exact absurd hbearer (by decide)
  have hvalb : ∀ b, validateJWT (setBackend env b) st (jsSubstring7 auth) =
      (.ok claims, st1) := fun b => hval
  constructor
  · unfold handleFetch
    simp only [hauth, hval, hsub]
    simp [hne, hbearer, hfalsy]
  · intro b
    unfold handleFetch
    simp only [hauth, hvalb b, hsub]
    simp [hne, hbearer, hfalsy]

/-- Witness for C6 at the concrete empty-sub token. -/
theorem empty_sub_rejected_403_witness :
    handleFetch envT stHit ⟨some ("Bearer " ++ tokenEmptySub)⟩ =
      (⟨403, "Forbidden: Invalid token claims"⟩, stHit) :=
  (empty_sub_rejected_403 envT stHit ⟨some ("Bearer " ++ tokenEmptySub)⟩
    ("Bearer " ++ tokenEmptySub) payloadEmptySub stHit (some (.str ""))
    rfl rfl rfl rfl rfl).1

/-- Claim C9: when the refresh fails, getJWKS returns the thrown error with
the cache state exactly as it was — no partial entry, no timestamp
update, no clearing — so the next call will attempt the fetch again. -/
theorem failed_refresh_preserves_cache (env : Env) (st : CacheState) (e : JsError)
    (herr : (getJWKS env st).1 = .error e) :
    getJWKS env st = (.error e, st) := by
  unfold getJWKS at herr ⊢
  by_cases h : cacheHit st.jwksCache st.jwksFetchedAt env.nowMs = true
  · rw [if_pos h] at herr
    exact absurd herr (by simp)
  · rw [if_neg h] at herr ⊢
    cases hr : refreshJWKS env with
    | ok j =>
      rw [hr] at herr
      exact absurd herr (by simp)
    | error e2 =>
      rw [hr] at herr
      simp_all

/-- Witness for C9: the network-down environment fails and leaves the
initial cache untouched. -/
theorem failed_refresh_preserves_cache_witness :
    getJWKS envDown initialCache = (.error .netErr, initialCache) :=
  failed_refresh_preserves_cache envDown initialCache .netErr rfl

/-- Helper: getJWKS reads the environment only through the clock and the
network. -/
theorem getJWKS_congr (e1 e2 : Env) (st : CacheState)
    (hn : e1.nowMs = e2.nowMs)
    (hh : ∀ u, fetchJson e1 u = fetchJson e2 u) :
    getJWKS e1 st = getJWKS e2 st := by
  have hrefresh : refreshJWKS e1 = refreshJWKS e2 := by
    unfold refreshJWKS
    simp only [hh]
  unfold getJWKS
  rw [hn, hrefresh]

/-- Claim C2, amended: the algorithm declared by the token header or by the
JWK is never consulted. Key import always receives the fixed
RSASSA-PKCS1-v1_5 with SHA-256 parameters of lines 46-49 and
verification always the fixed algorithm name of line 57, so the whole of
validateJWT is unchanged when the crypto capabilities are replaced by
any others that agree at those two fixed algorithm arguments. -/
theorem verification_uses_fixed_rsassa_params (e1 e2 : Env) (st : CacheState)
    (token : String)
    (hn : e1.nowMs = e2.nowMs)
    (hh : e1.httpGet = e2.httpGet)
    (hi : e1.importKey rsassaImportParams = e2.importKey rsassaImportParams)
    (hv : e1.verify verifyAlgName = e2.verify verifyAlgName) :
    validateJWT e1 st token = validateJWT e2 st token := by
  have hg := getJWKS_congr e1 e2 st hn (by unfold fetchJson; rw [hh]; exact fun _ => rfl)
  unfold validateJWT
  rw [hg, hn, hi, hv]

/-- Environment whose crypto accepts exactly the RSASSA-PKCS1-v1_5
algorithm family and rejects any other algorithm identifier. -/
def envStrict : Env :=
  ⟨0, fun _ => .error .netErr,
    fun p _ => if p.name = "RSASSA-PKCS1-v1_5" then .ok () else .error .importErr,
    fun a _ _ _ => a = "RSASSA-PKCS1-v1_5", .ok ⟨200, "backend"⟩⟩

/-- Witness for the amended C2 theorem: the algorithm-strict crypto and
the accept-all crypto agree at the fixed parameters, so validateJWT
cannot tell them apart on the HS256-declaring token. -/
theorem verification_uses_fixed_rsassa_params_witness :
    validateJWT envStrict stHit tokenAlgHS = validateJWT envT stHit tokenAlgHS :=
  verification_uses_fixed_rsassa_params envStrict envT stHit tokenAlgHS rfl rfl rfl rfl

/-- Claim C2, counterexample: a token whose header declares alg HS256 is
verified under the fixed RSA parameters and accepted — no
InvalidSignature rejection of the algorithm mismatch occurs, even with
crypto that only accepts the RSASSA family. -/
theorem hs256_header_not_rejected :
    atobString headerAlgB64 = some "\x7b\"kid\":\"k1\",\"alg\":\"HS256\"\x7d" ∧
    (validateJWT envStrict stHit tokenAlgHS).1 = .ok payloadFull :=
  ⟨rfl, rfl⟩

/-- Claim C4, amended: the HTTP status of the discovery and JWKS responses is
never consulted — getJWKS depends on the network only through the
response bodies, so a non-200 answer with a parseable JSON body is
processed (and cached) exactly like a 200; and an unparseable body does
not produce a distinct key-source-unavailable classification but throws
the raw JSON SyntaxError, which the boundary surfaces as a generic 401. -/
theorem jwks_status_ignored_and_parse_error_unclassified :
    (∀ e1 e2 : Env, ∀ st : CacheState, e1.nowMs = e2.nowMs →
      (∀ u, (e1.httpGet u).map HttpResponse.body = (e2.httpGet u).map HttpResponse.body) →
      getJWKS e1 st = getJWKS e2 st) ∧
    (∀ env : Env, ∀ st : CacheState, ∀ r : HttpResponse,
      cacheHit st.jwksCache st.jwksFetchedAt env.nowMs = false →
      env.httpGet oidcConfigUrl = .ok r → jsonParse r.body = none →
      getJWKS env st = (.error .badJson, st)) := by
  constructor
  · intro e1 e2 st hn hh
    have hfj : ∀ u, fetchJson e1 u = fetchJson e2 u := by
      intro u
      have h0 := hh u
      unfold fetchJson
      cases h1 : e1.httpGet u with
      | error a =>
        cases h2 : e2.httpGet u with
        | error b =>
          rw [h1, h2] at h0
          simp [Except.map] at h0
          rw [h0]
        | ok r2 =>
          rw [h1, h2] at h0
          simp [Except.map] at h0
      | ok r1 =>
        cases h2 : e2.httpGet u with
        | error b =>
          rw [h1, h2] at h0
          simp [Except.map] at h0
        | ok r2 =>
          rw [h1, h2] at h0
          simp [Except.map] at h0
          simp only [responseJson, h0]
    exact getJWKS_congr e1 e2 st hn hfj
  · intro env st r hmiss hcfg hbad
    unfold getJWKS
    rw [if_neg (by simp [hmiss])]
    have : refreshJWKS env = .error .badJson := by
      unfold refreshJWKS fetchJson
      rw [hcfg]
      simp [responseJson, hbad]
    rw [this]

/-- Network identical to the 500-status one except that the JWKS answer
carries status 200. -/
def http200 : String → Except JsError HttpResponse := fun u =>
  if u = oidcConfigUrl then .ok ⟨200, cfgBody⟩
  else if u = "https://jwks.test" then .ok ⟨200, jwksBody⟩
  else .error .netErr

def env200 : Env := ⟨0, http200, fun _ _ => .ok (), fun _ _ _ _ => true, .ok ⟨200, "backend"⟩⟩

/-- Environment whose discovery endpoint answers 200 with a body that is
not JSON. -/
def envBadBody : Env :=
  ⟨0, fun _ => .ok ⟨200, "not json"⟩, fun _ _ => .ok (), fun _ _ _ _ => true,
    .ok ⟨200, "backend"⟩⟩

/-- Witness for the amended C4 theorem: the 500-status and 200-status
networks with equal bodies are indistinguishable to getJWKS, and the
unparseable body throws the JSON error with the cache untouched. -/
theorem jwks_status_ignored_witness :
    getJWKS env500 initialCache = getJWKS env200 initialCache ∧
    getJWKS envBadBody initialCache = (.error .badJson, initialCache) :=
  ⟨jwks_status_ignored_and_parse_error_unclassified.1 env500 env200 initialCache rfl
      (by
        intro u
        by_cases h1 : u = oidcConfigUrl
        · simp [env500, env200, http500, http200, h1]
        · by_cases h2 : u = "https://jwks.test"
          · simp [env500, env200, http500, http200, h1, h2, Except.map, oidcConfigUrl,
              OIDC_ISSUER]
          · simp [env500, env200, http500, http200, h1, h2, Except.map]),
    jwks_status_ignored_and_parse_error_unclassified.2 envBadBody initialCache
      ⟨200, "not json"⟩ rfl rfl rfl⟩

/-- Claim C4, counterexample: with the JWKS endpoint answering HTTP 500 and a
JSON body, validateJWT succeeds outright — it returns the claims instead
of any key-source error, contradicting the claimed KeySourceUnavailable
rejection of non-200 statuses. -/
theorem jwks_500_still_succeeds :
    env500.httpGet "https://jwks.test" = .ok ⟨500, jwksBody⟩ ∧
    (validateJWT env500 initialCache tokenFull).1 = .ok payloadFull ∧
    (validateJWT env500 initialCache tokenFull).2.jwksCache = some jwksJson :=
  ⟨rfl, rfl, rfl⟩

/-- Helper for C7: every call of a pairwise-distinct schedule that runs
its cache check while the cache is still empty initiates its own fetch —
the miss steps never write the cache, so the count rises once per call. -/
theorem runSchedule_all_miss (nowMs : Int) (fetched : Json) :
    ∀ (l : List Nat) (s : ConcState), l.Nodup → s.cache = none →
      (∀ i ∈ l, s.phase i = .ready) →
      (runSchedule nowMs fetched s l).fetchCount = s.fetchCount + l.length := by
  intro l
  induction l with
  | nil =>
    intro s _ _ _
    simp [runSchedule]
  | cons i t ih =>
    intro s hnd hc hr
    have hstep : concStep nowMs fetched s i =
        ⟨s.cache, s.fetchedAt, s.fetchCount + 1,
          fun j => if j = i then .fetching else s.phase j⟩ := by
      unfold concStep
      rw [hr i (List.mem_cons_self i t), hc]
      simp [cacheHit]
    have hrun : runSchedule nowMs fetched s (i :: t) =
        runSchedule nowMs fetched (concStep nowMs fetched s i) t := rfl
    have hnd2 := List.nodup_cons.mp hnd
    have hrec := ih ⟨s.cache, s.fetchedAt, s.fetchCount + 1,
        fun j => if j = i then .fetching else s.phase j⟩ hnd2.2 hc
      (by
        intro j hj
        have hji : j ≠ i := by
          rintro rfl
          exact hnd2.1 hj
        simp only [hji, if_false]
        exact hr j (List.mem_cons_of_mem i hj))
    rw [hrun, hstep, hrec]
    simp
    omega

/-- Claim C7, amended: concurrent cache-miss refreshes are not coalesced. When
N calls overlap on the empty cache and each runs line 15's check before
any fetch completes, every one of them initiates its own fetch pair: the
key source is invoked N times, not once. The TTL half of the behaviour
does hold sequentially: a call finding a truthy cached set fresher than
ten minutes serves it without touching the network. -/
theorem refresh_not_coalesced :
    (∀ (nowMs : Int) (fetched : Json) (N : Nat) (s : ConcState), s.cache = none →
      (∀ i, s.phase i = .ready) →
      (runSchedule nowMs fetched s (List.range N)).fetchCount = s.fetchCount + N) ∧
    (∀ (env : Env) (st : CacheState) (v : Json), st.jwksCache = some v →
      jsTruthy v = true → env.nowMs - st.jwksFetchedAt < cacheTtlMs →
      getJWKS env st = (.ok v, st)) := by
  constructor
  · intro nowMs fetched N s hc hr
    have := runSchedule_all_miss nowMs fetched (List.range N) s (List.nodup_range N) hc
      (fun i _ => hr i)
    simpa using this
  · intro env st v hv htr httl
    unfold getJWKS
    rw [if_pos (by simp [cacheHit, hv, htr, httl])]
    simp [hv]

/-- Witness for the amended C7 theorem at two calls and at the concrete
fresh cache. -/
theorem refresh_not_coalesced_witness :
    (runSchedule 0 jwksJson concStart (List.range 2)).fetchCount = 2 ∧
    getJWKS envT stHit = (.ok jwksJson, stHit) :=
  ⟨by simpa using refresh_not_coalesced.1 0 jwksJson 2 concStart rfl (fun _ => rfl),
   refresh_not_coalesced.2 envT stHit jwksJson rfl rfl (by decide)⟩

/-- Claim C7, counterexample: two overlapping calls on the empty cache both
pass line 15's test before either fetch completes, and each initiates
its own fetch — the key source is invoked twice within a single TTL
window where the claim requires exactly one invocation. -/
theorem overlapping_misses_fetch_twice :
    (runSchedule 0 jwksJson concStart [0, 1, 0, 1]).fetchCount = 2 := rfl

/-- Helper: removing the last element keeps every member different from
it. -/
theorem mem_dropLast_of_ne {c y : Char} {l : List Char} (hm : c ∈ l)
    (hl : l.getLast? = some y) (hne : c ≠ y) : c ∈ l.dropLast := by
  have happ : l.dropLast ++ [y] = l :=
    List.dropLast_append_getLast? y (by rw [hl]; rfl)
  rw [← happ] at hm
  rcases List.mem_append.mp hm with h | h
  · exact h
  · rw [List.mem_singleton] at h
    exact absurd h hne

/-- Helper: removing one padding character keeps every non-'='. -/
theorem mem_dropOneEq {c : Char} (hne : c ≠ '=') {l : List Char} (hm : c ∈ l) :
    c ∈ dropOneEq l := by
  unfold dropOneEq
  split
  · next h1 => exact mem_dropLast_of_ne hm h1 hne
  · exact hm

/-- Helper: padding removal only discards '=' characters. -/
theorem mem_dropTrailingEq {c : Char} (hne : c ≠ '=') {l : List Char} (hm : c ∈ l) :
    c ∈ dropTrailingEq l :=
  mem_dropOneEq hne (mem_dropOneEq hne hm)

/-- Helper: one character outside the alphabet fails the whole decode. -/
theorem mapB64_eq_none {c : Char} (hc : b64Val c = none) :
    ∀ l : List Char, c ∈ l → mapB64 l = none := by
  intro l
  induction l with
  | nil => simp
  | cons x xs ih =>
    intro hm
    rcases List.mem_cons.mp hm with h | h
    · subst h
      unfold mapB64
      rw [hc]
    · unfold mapB64
      rw [ih h]
      cases b64Val x <;> rfl

/-- Helper: atob throws on any input containing a character that is
neither whitespace, nor padding, nor in the standard base64 alphabet. -/
theorem atobBytes_eq_none {c : Char} {s : String}
    (hmem : c ∈ s.data) (hval : b64Val c = none) (hws : isB64Ws c = false)
    (hne : c ≠ '=') : atobBytes s = none := by
  unfold atobBytes
  have hm0 : c ∈ s.data.filter (fun c => !(isB64Ws c)) :=
    List.mem_filter.mpr ⟨hmem, by simp [hws]⟩
  have hm1 : c ∈ stripB64 (s.data.filter (fun c => !(isB64Ws c))) := by
    unfold stripB64
    split
    · exact mem_dropTrailingEq hne hm0
    · exact hm0
  unfold atobCore
  split
  · rfl
  · rw [mapB64_eq_none hval _ hm1]

def exceptIsError : Except JsError Json → Bool
  | .error _ => true
  | .ok _ => false

theorem setVerify_importKey (e : Env) (v : String → Json → List Nat → List Nat → Bool) :
    (setVerify e v).importKey = e.importKey := rfl

theorem setVerify_nowMs (e : Env) (v : String → Json → List Nat → List Nat → Bool) :
    (setVerify e v).nowMs = e.nowMs := rfl

theorem getJWKS_setVerify (e : Env) (v : String → Json → List Nat → List Nat → Bool)
    (st : CacheState) : getJWKS (setVerify e v) st = getJWKS e st := rfl

/-- Helper: with a signature segment atob rejects, every path of
validateJWT ends in a thrown error. -/
theorem validateJWT_sigfail_isErr (env : Env) (st : CacheState)
    (token h64 p64 s64 : String)
    (hsplit : jsSplitDot token = [h64, p64, s64])
    (hsig : atobBytes s64 = none) :
    exceptIsError (validateJWT env st token).1 = true := by
  unfold validateJWT
  simp only [hsplit, hsig]
  repeat' split
  all_goals simp [exceptIsError]

/-- Helper: with a signature segment atob rejects, the verify capability
is never consulted — replacing it changes nothing. -/
theorem validateJWT_sigfail_vinv (env : Env)
    (v : String → Json → List Nat → List Nat → Bool) (st : CacheState)
    (token h64 p64 s64 : String)
    (hsplit : jsSplitDot token = [h64, p64, s64])
    (hsig : atobBytes s64 = none) :
    validateJWT (setVerify env v) st token = validateJWT env st token := by
  unfold validateJWT
  simp only [hsplit, hsig, getJWKS_setVerify, setVerify_importKey, setVerify_nowMs]

/-- Claim C10: the signature segment goes through the standard-base64 decoder
atob, not a base64url decoder, so any token whose third segment contains
'-' or '_' — the characters proper to the base64url alphabet every real
JWT signature uses — makes validateJWT throw: the result is an error and
the cryptographic verify capability is never invoked, whatever it would
have answered. -/
theorem base64url_signature_never_verified (env : Env) (st : CacheState)
    (token h64 p64 s64 : String)
    (hsplit : jsSplitDot token = [h64, p64, s64])
    (hmem : '-' ∈ s64.data ∨ '_' ∈ s64.data) :
    (∃ e, (validateJWT env st token).1 = .error e) ∧
    ∀ v, validateJWT (setVerify env v) st token = validateJWT env st token := by
  have hsig : atobBytes s64 = none := by
    rcases hmem with h | h
    · exact atobBytes_eq_none h (by decide) (by decide) (by decide)
    · exact atobBytes_eq_none h (by decide) (by decide) (by decide)
  constructor
  · have hh := validateJWT_sigfail_isErr env st token h64 p64 s64 hsplit hsig
    cases hres : (validateJWT env st token).1 with
    | ok j =>
      rw [hres] at hh
      exact absurd hh (by simp [exceptIsError])
    | error e => exact ⟨e, rfl⟩
  · intro v
    exact validateJWT_sigfail_vinv env v st token h64 p64 s64 hsplit hsig

/-- Token identical to the valid one except that its signature segment
is base64url (contains '-' and '_'). -/
def tokenUrlSig : String := headerK1B64 ++ "." ++ payloadFullB64 ++ ".ab-_"

/-- Witness for C10 at the concrete base64url-signature token. -/
theorem base64url_signature_never_verified_witness :
    (∃ e, (validateJWT envT stHit tokenUrlSig).1 = .error e) ∧
    validateJWT (setVerify envT (fun _ _ _ _ => false)) stHit tokenUrlSig =
      validateJWT envT stHit tokenUrlSig :=
  ⟨(base64url_signature_never_verified envT stHit tokenUrlSig headerK1B64 payloadFullB64
      "ab-_" rfl (Or.inl (by decide))).1,
   (base64url_signature_never_verified envT stHit tokenUrlSig headerK1B64 payloadFullB64
      "ab-_" rfl (Or.inl (by decide))).2 (fun _ _ _ _ => false)⟩

/-- The five failures validateJWT classifies itself, by throwing
`new Error` with a dedicated message (lines 31, 40, 58, 61, 62). They
correspond to the spec's MalformedToken, UnknownKey, InvalidSignature,
IssuerMismatch and TokenExpired; the code never produces a
KeySourceUnavailable classification, and the MissingSubject rejection
lives in the handler's 403 branch, not in an error value. -/
def classifiedErrors : List JsError :=
  [.error "Invalid JWT format", .error "No matching JWK", .error "Invalid signature",
    .error "Invalid issuer", .error "Token expired"]

/-- Claim C8, amended: the Worker always terminates with a definite response —
every thrown error, classified or not, is caught by the boundary
try/catch and answered as a 401, the falsy-sub check answers 403, and
otherwise the backend's response is forwarded. The process never
crashes, but the failure taxonomy is not the claimed one: see the
counterexample for an escaping unclassified host exception. -/
theorem handler_always_answers (env : Env) (st : CacheState) (req : WRequest) :
    (handleFetch env st req).1.status = 401 ∨ (handleFetch env st req).1.status = 403 ∨
    env.backendResponse = .ok (handleFetch env st req).1 := by
  unfold handleFetch
  repeat' split
  all_goals simp_all

/-- Claim C8, counterexample: a token whose header segment is not base64 makes
validateJWT throw the raw atob DOMException — an error that is none of
the five classifications the code establishes (and in particular not the
MalformedToken rejection of line 31); it escapes the validation pipeline
and is only neutralised by the boundary catch-all, surfacing as a
generic 401. -/
theorem unclassified_error_escapes :
    (validateJWT envT stHit "%.x.y").1 = .error .badBase64 ∧
    JsError.badBase64 ∉ classifiedErrors ∧
    handleFetch envT stHit ⟨some "Bearer %.x.y"⟩ =
      (⟨401, "Unauthorized: " ++ errMessage .badBase64⟩, stHit) :=
  ⟨rfl, by decide, rfl⟩

end AuthWorker
